import Mathlib

/-
Verification development for the GAN training engine of
src/mlpack/methods/ann/gan/gan_impl.hpp and the Frechet distance metric of
src/mlpack/methods/ann/gan/metrics/frechet_distance.hpp.

The GAN engine is a stateful C++ class driven by an external optimizer.  We
embed it as explicit state passing over a `GANState` record: armadillo
matrices become lists of rational entries (a matrix is a list of its
columns), a non-owning sub-view into the flat parameter or gradient buffer
becomes an (offset, length) pair, and an assignment through a sub-view
becomes `writeSlice`.  Doubles are modelled as exact rationals for the
engine and as real numbers for the Frechet metric (which needs square
roots).

The two sub-models (generator and discriminator feed-forward networks), the
noise-sampling distribution and the initialization rule are external
collaborators of this component (their code is not part of this
repository slice); following the interface contract they satisfy, they are
modelled as an `Env` record of arbitrary functions of the engine state,
universally quantified in every theorem, plus the freshly sampled noise
passed explicitly to each evaluation call.
-/

/-- One column of an armadillo matrix, as a list of rational entries.
A matrix is a `List Col`, the list of its columns. -/
abbrev Col := List ℚ

/-- The mutable state of a `GAN<Model, InitializationRuleType, Noise,
PolicyType>` object (gan_impl.hpp): the fused predictor matrix (real
columns followed by the generator-reserved columns), the fused response
row, the flat shared parameter buffer with the two (offset, length)
sub-views installed by `Reset`, the noise matrix, the buffers and flags of
the two sub-models that the engine touches, and the counters. -/
structure GANState where
  /-- Fused predictor matrix: columns [0, numFunctions) are real samples,
  columns [numFunctions, numFunctions + batchSize) are reserved for the
  generator output. -/
  predictors : List Col
  /-- Fused response row of length numFunctions + batchSize. -/
  responses : List ℚ
  /-- Flat shared parameter buffer. -/
  parameter : List ℚ
  /-- Offset of the generator parameter view into `parameter`. -/
  genViewOff : ℕ
  /-- Length of the generator parameter view. -/
  genViewLen : ℕ
  /-- Offset of the discriminator parameter view into `parameter`. -/
  discViewOff : ℕ
  /-- Length of the discriminator parameter view. -/
  discViewLen : ℕ
  /-- Noise matrix (noiseDim x batchSize), refreshed each evaluation. -/
  noise : List Col
  /-- Predictor buffer of the generator sub-model. -/
  genPredictors : List Col
  /-- Error signal fed into the generator backward pass. -/
  genError : List Col
  /-- Scratch gradient buffer for the second discriminator pass. -/
  noiseGradientDiscriminator : List ℚ
  /-- Contents of the discriminator segment view of the last gradient. -/
  gradientDiscriminator : List ℚ
  /-- Contents of the generator segment view of the last gradient. -/
  gradientGenerator : List ℚ
  /-- Number of real training columns. -/
  numFunctions : ℕ
  /-- Batch size. -/
  batchSize : ℕ
  /-- Dimension of the noise vectors. -/
  noiseDim : ℕ
  /-- Monotonic step counter. -/
  currentBatch : ℕ
  /-- Generator update cadence. -/
  generatorUpdateStep : ℕ
  /-- Remaining discriminator-only pretraining steps. -/
  preTrainSize : ℕ
  /-- Scaling factor applied to the generator gradient. -/
  multiplier : ℚ
  /-- Label value for real samples. -/
  realLabel : ℚ
  /-- Label value for generated samples. -/
  fakeLabel : ℚ
  /-- Latch set by `Reset`. -/
  reset : Bool
  /-- Inference-mode flag of the engine. -/
  deterministic : Bool
  /-- Inference-mode flag propagated to the discriminator. -/
  discDeterministic : Bool
  /-- Inference-mode flag propagated to the generator. -/
  genDeterministic : Bool
  /-- Sum of the per-layer weight sizes of the generator. -/
  genWeights : ℕ
  /-- Sum of the per-layer weight sizes of the discriminator. -/
  discWeights : ℕ
  deriving Repr, DecidableEq

/-- External collaborators of the engine: the layer structure of the two
sub-models (queried for per-layer weight sizes), the initialization rule
(modelled, per the interface contract, as the deterministic values it
writes into each segment of the parameter buffer), and the forward,
loss and gradient computations of the two feed-forward sub-models,
modelled as arbitrary functions of the engine state visible to them. -/
structure Env where
  /-- Per-layer weight sizes of the generator network. -/
  genLayerSizes : List ℕ
  /-- Per-layer weight sizes of the discriminator network. -/
  discLayerSizes : List ℕ
  /-- Values the initialization rule writes into the generator segment. -/
  genInit : List ℚ
  /-- Values the initialization rule writes into the discriminator segment. -/
  discInit : List ℚ
  genInit_len : genInit.length = genLayerSizes.sum
  discInit_len : discInit.length = discLayerSizes.sum
  /-- discriminator.EvaluateWithGradient(parameter, i, gradOut, batchSize):
  loss returned and the gradient written through the passed buffer. -/
  discEvalWithGradient : GANState → ℕ → ℚ × List ℚ
  /-- Output-layer loss of the discriminator forward pass at a slice. -/
  discLoss : GANState → ℕ → ℚ
  /-- discriminator.Gradient(parameter, i, gradOut, batchSize): gradient
  written through the passed buffer, and the backward delta harvested at
  network[1] (one layer past the prepended identity join layer). -/
  discGradientDelta : GANState → ℕ → List ℚ × List Col
  /-- Output columns of the generator forward pass on the given noise. -/
  genForward : GANState → List Col → List Col
  genForward_len : ∀ s ns, (genForward s ns).length = s.batchSize
  /-- generator.Gradient(parameter, 0, gradOut, batchSize): gradient
  written through the generator segment view. -/
  genGradient : GANState → List ℚ

/-- Assignment through an armadillo sub-view: overwrite the entries of
`buf` starting at `off` with `vals`, leaving everything else unchanged. -/
def writeSlice {α : Type} (buf : List α) (off : ℕ) (vals : List α) :
    List α :=
  buf.take off ++ vals ++ buf.drop (off + vals.length)

/-- Contents of a sub-view of `buf` at `off` of length `len`. -/
def viewSlice {α : Type} (buf : List α) (off len : ℕ) : List α :=
  (buf.drop off).take len

/-- GAN::Reset (gan_impl.hpp lines 198-228): recompute the two weight
counts by summing the per-layer weight sizes, size the shared parameter
buffer to their total, install the two non-owning sub-views at offsets 0
and genWeights, run the initialization rule over each segment, and set the
reset latch. -/
def Reset (env : Env) (s : GANState) : GANState :=
  let gw := env.genLayerSizes.sum
  let dw := env.discLayerSizes.sum
  { s with
    genWeights := gw
    discWeights := dw
    parameter := env.genInit ++ env.discInit
    genViewOff := 0
    genViewLen := gw
    discViewOff := gw
    discViewLen := dw
    reset := true }

/-- GAN::ResetDeterministic (gan_impl.hpp lines 534-541): propagate the
engine deterministic flag into both sub-models. -/
def ResetDeterministicProp (s : GANState) : GANState :=
  { s with
    discDeterministic := s.deterministic
    genDeterministic := s.deterministic }

/-- Lazy initialization used at the head of the evaluation entry points:
if the parameter buffer is empty, run `Reset`. -/
def lazyReset (env : Env) (s : GANState) : GANState :=
  if s.parameter.isEmpty then Reset env s else s

/-- GAN::ResetData (gan_impl.hpp lines 146-190): reset the step counter,
store the labels, size the noise matrix, switch to inference mode, build
the fused predictor matrix (real columns followed by a freshly allocated
batchSize-column region) and the fused response row (realLabel block then
fakeLabel block), size the generator buffers, and lazily `Reset` if the
latch is not set.  `freshTail`, `freshNoise`, `freshGenPred` and
`freshGenResp` stand for the contents of the freshly allocated
(uninitialized) armadillo buffers produced by set_size. -/
def ResetData (env : Env) (s : GANState) (trainData : List Col)
    (realLabel fakeLabel : ℚ) (freshTail freshNoise freshGenPred
    freshGenResp : List Col) : GANState :=
  let s1 := { s with
    currentBatch := 0
    realLabel := realLabel
    fakeLabel := fakeLabel
    numFunctions := trainData.length
    noise := freshNoise
    deterministic := true }
  let s2 := ResetDeterministicProp s1
  let s3 := { s2 with
    predictors := trainData ++ freshTail
    responses := List.replicate trainData.length realLabel ++
      List.replicate s.batchSize fakeLabel
    genPredictors := freshGenPred
    genError := freshGenResp }
  if s3.reset = false then Reset env s3 else s3

/-- GAN::EvaluateWithGradient (gan_impl.hpp lines 353-442), the central
training step, for the StandardGAN / DCGAN policies.  Arguments mirror the
call (the minibatch index `i`, the caller gradient buffer `gradIn`) plus
the freshly sampled noise matrix `freshNoise` produced by noise.imbue.
Returns the summed loss, the gradient written through the caller buffer,
and the post-call engine state. -/
def EvaluateWithGradient (env : Env) (s : GANState) (i : ℕ)
    (gradIn : List ℚ) (freshNoise : List Col) :
    ℚ × List ℚ × GANState :=
  -- if (parameter.is_empty()) Reset();
  let s1 := lazyReset env s
  -- if (gradient.is_empty()) { if (parameter.is_empty()) Reset();
  --   gradient = zeros(parameter.n_elem, 1); } else gradient.zeros();
  let s2 := if gradIn.isEmpty then lazyReset env s1 else s1
  let grad0 : List ℚ :=
    if gradIn.isEmpty then List.replicate s2.parameter.length 0
    else List.replicate gradIn.length 0
  -- if (deterministic) { deterministic = false; ResetDeterministic(); }
  let s3 := if s2.deterministic then
      ResetDeterministicProp { s2 with deterministic := false } else s2
  -- zero or allocate the scratch buffer (sized from the stale view)
  let s4 := { s3 with noiseGradientDiscriminator :=
      if s3.noiseGradientDiscriminator.isEmpty then
        List.replicate s3.gradientDiscriminator.length 0
      else List.replicate s3.noiseGradientDiscriminator.length 0 }
  -- gradientGenerator / gradientDiscriminator views into the buffer
  let genLen := s4.genViewLen
  let discLen := s4.discViewLen
  -- res = discriminator.EvaluateWithGradient(parameter, i,
  --   gradientDiscriminator, batchSize);
  let r1 := env.discEvalWithGradient s4 i
  let grad1 := writeSlice grad0 genLen r1.2
  -- noise.imbue(noiseFunction); generator.Forward(noise); write the
  -- generator output into the reserved predictor columns
  let s5 := { s4 with noise := freshNoise }
  let genOut := env.genForward s5 freshNoise
  let s6 := { s5 with
    predictors := writeSlice s5.predictors s5.numFunctions genOut }
  -- relabel the generated slice as fake
  let resp7 := writeSlice s6.responses s6.numFunctions
      (List.replicate s6.batchSize s6.fakeLabel)
  let s7 := { s6 with responses := resp7 }
  -- res += discriminator.EvaluateWithGradient(parameter, numFunctions,
  --   noiseGradientDiscriminator, batchSize);
  -- gradientDiscriminator += noiseGradientDiscriminator;
  let r2 := env.discEvalWithGradient s7 s7.numFunctions
  let s8 := { s7 with noiseGradientDiscriminator := r2.2 }
  let grad2 := writeSlice grad1 genLen
      (List.zipWith (· + ·) (viewSlice grad1 genLen discLen) r2.2)
  -- generator update gate
  let step :=
    if s8.currentBatch % s8.generatorUpdateStep = 0 ∧ s8.preTrainSize = 0
    then
      -- relabel the generated slice as real
      let resp9 := writeSlice s8.responses
          s8.numFunctions (List.replicate s8.batchSize s8.realLabel)
      let s9 := { s8 with responses := resp9 }
      -- discriminator.Gradient at the generated slice; harvest the delta
      -- at network[1] as the generator error
      let r3 := env.discGradientDelta s9 s9.numFunctions
      let s10 := { s9 with
        noiseGradientDiscriminator := r3.1
        genError := r3.2 }
      -- generator.Predictors() = noise; recompute the generator gradient
      -- through the generator segment view; scale it by the multiplier
      let s11 := { s10 with genPredictors := s10.noise }
      let g := env.genGradient s11
      let grad3 := writeSlice grad2 0 g
      let grad4 := writeSlice grad3 0
          ((viewSlice grad3 0 genLen).map (fun x => s11.multiplier * x))
      (grad4, s11)
    else (grad2, s8)
  -- currentBatch++; if (preTrainSize > 0) preTrainSize--;
  let sFin := { step.2 with
    currentBatch := step.2.currentBatch + 1
    preTrainSize := if 0 < step.2.preTrainSize then
        step.2.preTrainSize - 1 else step.2.preTrainSize
    gradientGenerator := viewSlice step.1 0 genLen
    gradientDiscriminator := viewSlice step.1 genLen discLen }
  (r1.1 + r2.1, step.1, sFin)

/-- GAN::Gradient (gan_impl.hpp lines 450-460): thin wrapper that calls
EvaluateWithGradient and discards the returned loss. -/
def Gradient (env : Env) (s : GANState) (i : ℕ) (gradIn : List ℚ)
    (freshNoise : List Col) : List ℚ × GANState :=
  let r := EvaluateWithGradient env s i gradIn freshNoise
  (r.2.1, r.2.2)

/-- State reached by GAN::Evaluate before any data is touched: lazy reset,
then the (duplicated, idempotent) switch to inference mode
(gan_impl.hpp lines 294-309). -/
def evalPre (env : Env) (s : GANState) : GANState :=
  let s1 := lazyReset env s
  let s2 := if ¬ s1.deterministic then
      ResetDeterministicProp { s1 with deterministic := true } else s1
  if ¬ s2.deterministic then
    ResetDeterministicProp { s2 with deterministic := true } else s2

/-- State of the engine inside GAN::Evaluate right after the noise matrix
is refreshed with the freshly sampled values (gan_impl.hpp line 322). -/
def evalNoiseState (env : Env) (s : GANState) (freshNoise : List Col) :
    GANState :=
  { evalPre env s with noise := freshNoise }

/-- GAN::Evaluate (gan_impl.hpp lines 289-342), the loss-only entry point
for the StandardGAN / DCGAN policies: forward the discriminator on the
real slice, refresh the noise, write the generator output into the
reserved predictor columns, relabel them as fake, forward the
discriminator on them, and return the summed loss.  No gradient is
produced, but the noise, the reserved predictor columns and the trailing
responses are mutated. -/
def Evaluate (env : Env) (s : GANState) (i : ℕ) (freshNoise : List Col) :
    ℚ × GANState :=
  let s3 := evalPre env s
  let res1 := env.discLoss s3 i
  let s4 := evalNoiseState env s freshNoise
  let genOut := env.genForward s4 freshNoise
  let s5 := { s4 with
    predictors := writeSlice s4.predictors s4.numFunctions genOut }
  let respE := writeSlice s5.responses s5.numFunctions
      (List.replicate s5.batchSize s5.fakeLabel)
  let s6 := { s5 with responses := respE }
  let res2 := env.discLoss s6 s6.numFunctions
  (res1 + res2, s6)

/-- GAN::Shuffle (gan_impl.hpp lines 468-473): overwrite the real-sample
columns [0, numFunctions) of the predictor matrix with the columns
selected by `ordering`, the randomly shuffled identity permutation of
[0, numFunctions) produced by arma::shuffle(arma::linspace(...)); the
ordering is passed explicitly as the random outcome. -/
def Shuffle (s : GANState) (ordering : List ℕ) : GANState :=
  let permuted := ordering.map (fun k => s.predictors.getD k [])
  { s with predictors := writeSlice s.predictors 0 permuted }

/-- Invariant on the installed parameter views: the two sub-views lie at
offsets 0 and genWeights with lengths genWeights and discWeights, and the
buffer has exactly their total length, so they partition it with no
overlap. -/
def ParamPartition (s : GANState) : Prop :=
  s.parameter.length = s.genWeights + s.discWeights ∧
  s.genViewOff = 0 ∧ s.genViewLen = s.genWeights ∧
  s.discViewOff = s.genWeights ∧ s.discViewLen = s.discWeights

instance (s : GANState) : Decidable (ParamPartition s) := by
  unfold ParamPartition; infer_instance

/-- Mean along dimension 1 of a dims x samples matrix (arma::mean(p, 1)):
the vector of row means. -/
noncomputable def rowMean {D N : ℕ} (p : Matrix (Fin D) (Fin N) ℝ)
    (i : Fin D) : ℝ :=
  (∑ j, p i j) / (N : ℝ)

/-- Mean of column `i` of an observations x variables matrix. -/
noncomputable def colMean {N D : ℕ} (X : Matrix (Fin N) (Fin D) ℝ)
    (i : Fin D) : ℝ :=
  (∑ k, X k i) / (N : ℝ)

/-- arma::cov of an observations x variables matrix with the default
normalisation by N - 1. -/
noncomputable def armaCov {N D : ℕ} (X : Matrix (Fin N) (Fin D) ℝ) :
    Matrix (Fin D) (Fin D) ℝ :=
  Matrix.of fun i j =>
    (∑ k, (X k i - colMean X i) * (X k j - colMean X j)) / ((N : ℝ) - 1)

/-- arma::sqrt of a matrix: the element-wise square root. -/
noncomputable def elemSqrt {D : ℕ} (A : Matrix (Fin D) (Fin D) ℝ) :
    Matrix (Fin D) (Fin D) ℝ :=
  Matrix.of fun i j => Real.sqrt (A i j)

/-- FrechetDistance::Evaluate (frechet_distance.hpp lines 50-65): the
2-norm of the difference of the two column-point means, plus the trace of
c + cW - 2 * arma::sqrt(c * trans(cW)), where c and cW are the
covariances of the transposed inputs and arma::sqrt is element-wise. -/
noncomputable def frechetEvaluate {D N : ℕ}
    (p pw : Matrix (Fin D) (Fin N) ℝ) : ℝ :=
  let firstTerm := Real.sqrt (∑ i, (rowMean p i - rowMean pw i) ^ 2)
  let c := armaCov p.transpose
  let cW := armaCov pw.transpose
  let secondTerm := Matrix.trace (c + cW - (2 : ℝ) • elemSqrt (c * cW.transpose))
  firstTerm + secondTerm

/-- Follows the words of the spec (section 4.9): the value
norm2(mean(P) - mean(Q)) + trace(Cov(P) + Cov(Q) - 2 * S) where the matrix
`S` stands for sqrtm(Cov(P) * Cov(Q)^t), the principal matrix square
root.  Written to be compared with `frechetEvaluate`, which is the code. -/
noncomputable def frechetSpecValue {D N : ℕ}
    (p pw : Matrix (Fin D) (Fin N) ℝ) (S : Matrix (Fin D) (Fin D) ℝ) : ℝ :=
  Real.sqrt (∑ i, (rowMean p i - rowMean pw i) ^ 2) +
    Matrix.trace (armaCov p.transpose + armaCov pw.transpose - (2 : ℝ) • S)

/-- The argument of sqrtm in the spec formula: Cov(P) * Cov(Q)^t. -/
noncomputable def covProd {D N : ℕ} (p pw : Matrix (Fin D) (Fin N) ℝ) :
    Matrix (Fin D) (Fin D) ℝ :=
  armaCov p.transpose * (armaCov pw.transpose).transpose

/-- Characterisation of the principal matrix square root used by the spec:
for a positive semidefinite argument the principal square root is its
unique positive semidefinite square root. -/
def IsPrincipalSqrt {D : ℕ} (A S : Matrix (Fin D) (Fin D) ℝ) : Prop :=
  S.PosSemidef ∧ S * S = A

/-- Concrete sample matrix (2 dims x 2 samples, the points (0,0) and
(3,4)) on which the element-wise square root visibly diverges from the
principal matrix square root. -/
noncomputable def X0 : Matrix (Fin 2) (Fin 2) ℝ :=
  Matrix.of ![![0, 3], ![0, 4]]

/-- The covariance of the columns of `X0`, value of armaCov X0^t. -/
noncomputable def covX0 : Matrix (Fin 2) (Fin 2) ℝ :=
  Matrix.of ![![9/2, 6], ![6, 8]]

/-- Concrete environment used by the witness theorems. -/
def env0 : Env where
  genLayerSizes := [2]
  discLayerSizes := [3]
  genInit := [1, 2]
  discInit := [3, 4, 5]
  genInit_len := rfl
  discInit_len := rfl
  discEvalWithGradient := fun _ _ => (1, [1, 1, 1])
  discLoss := fun _ _ => 1
  discGradientDelta := fun _ _ => ([0, 0, 0], [[1]])
  genForward := fun s _ => List.replicate s.batchSize [0]
  genForward_len := fun _ _ => List.length_replicate _ _
  genGradient := fun _ => [1, 1]

/-- Concrete engine state used by the witness theorems: two real columns,
batch size one, counters placed so that the generator update gate is
closed (currentBatch = 1, generatorUpdateStep = 2, preTrainSize = 2). -/
def st0 : GANState where
  predictors := [[1], [2], [3]]
  responses := [1, 1, 0]
  parameter := [1, 2, 3, 4, 5]
  genViewOff := 0
  genViewLen := 2
  discViewOff := 2
  discViewLen := 3
  noise := [[0]]
  genPredictors := [[0]]
  genError := [[0]]
  noiseGradientDiscriminator := []
  gradientDiscriminator := []
  gradientGenerator := []
  numFunctions := 2
  batchSize := 1
  noiseDim := 1
  currentBatch := 1
  generatorUpdateStep := 2
  preTrainSize := 2
  multiplier := 1
  realLabel := 1
  fakeLabel := 0
  reset := false
  deterministic := false
  discDeterministic := false
  genDeterministic := false
  genWeights := 2
  discWeights := 3

/-- Variant of `st0` whose pretraining counter is already exhausted. -/
def st1 : GANState :=
  { st0 with preTrainSize := 0 }

theorem take_writeSlice {α : Type} (g : List α) (off n : ℕ) (v : List α)
    (h1 : n ≤ off) (h2 : n ≤ g.length) :
    (writeSlice g off v).take n = g.take n := by
  unfold writeSlice
  rw [List.append_assoc]
  rw [List.take_append_of_le_length
    (by rw [List.length_take]; exact le_min h1 h2)]
  rw [List.take_take, Nat.min_eq_left h1]

theorem drop_writeSlice {α : Type} (g : List α) (off : ℕ) (v : List α)
    (h : g.length = off + v.length) :
    (writeSlice g off v).drop off = v := by
  unfold writeSlice
  have hlen : (g.take off).length = off := by
    rw [List.length_take]; omega
  rw [List.append_assoc, List.drop_left' hlen,
    List.drop_eq_nil_of_le (by omega), List.append_nil]

theorem writeSlice_length {α : Type} (g : List α) (off : ℕ) (v : List α)
    (h : off + v.length ≤ g.length) :
    (writeSlice g off v).length = g.length := by
  unfold writeSlice
  simp only [List.length_append, List.length_take, List.length_drop]
  omega

/-- C9: Reset sets the reset latch to true, and calling Reset a second
time leaves the whole engine state (in particular the parameter buffer,
both parameter views and the initialized weights) identical to the state
after the first call. -/
theorem reset_latch_and_idempotence (env : Env) (s : GANState) :
    (Reset env s).reset = true ∧ Reset env (Reset env s) = Reset env s :=
  ⟨rfl, rfl⟩

/-- C8: Gradient is a thin wrapper around EvaluateWithGradient: from the
same state, with the same minibatch index, caller gradient buffer and
noise samples, it produces exactly the gradient and the post-call state of
EvaluateWithGradient, discarding only the returned loss. -/
theorem gradient_matches_evaluateWithGradient (env : Env) (s : GANState)
    (i : ℕ) (gradIn : List ℚ) (freshNoise : List Col) :
    Gradient env s i gradIn freshNoise =
      ((EvaluateWithGradient env s i gradIn freshNoise).2.1,
       (EvaluateWithGradient env s i gradIn freshNoise).2.2) := rfl

/-- C4: every EvaluateWithGradient call increments currentBatch by exactly
one; preTrainSize decreases by exactly one on a call where it is positive
and stays at zero once it is zero. -/
theorem counters_step (env : Env) (s : GANState) (i : ℕ) (gradIn : List ℚ)
    (freshNoise : List Col) :
    ((EvaluateWithGradient env s i gradIn freshNoise).2.2.currentBatch
      = s.currentBatch + 1) ∧
    (0 < s.preTrainSize →
      (EvaluateWithGradient env s i gradIn freshNoise).2.2.preTrainSize
        = s.preTrainSize - 1) ∧
    (s.preTrainSize = 0 →
      (EvaluateWithGradient env s i gradIn freshNoise).2.2.preTrainSize
        = 0) := by
  refine ⟨?_, fun h => ?_, fun h => ?_⟩ <;>
    simp only [EvaluateWithGradient, lazyReset, Reset,
      ResetDeterministicProp, apply_ite Prod.snd,
      apply_ite GANState.currentBatch, apply_ite GANState.preTrainSize,
      ite_self]
  · rw [if_pos h]
  · simp [h]

/-- Closed witness for `counters_step` at the concrete engine state `st0`
(whose pretraining counter is positive) and its exhausted variant `st1`. -/
theorem counters_step_witness :
    (0 < st0.preTrainSize ∧
      (EvaluateWithGradient env0 st0 0 [] []).2.2.currentBatch
        = st0.currentBatch + 1 ∧
      (EvaluateWithGradient env0 st0 0 [] []).2.2.preTrainSize
        = st0.preTrainSize - 1) ∧
    (st1.preTrainSize = 0 ∧
      (EvaluateWithGradient env0 st1 0 [] []).2.2.preTrainSize = 0) := by
  have h0 := counters_step env0 st0 0 [] []
  have h1 := counters_step env0 st1 0 [] []
  exact ⟨⟨by decide, h0.1, h0.2.1 (by decide)⟩, by decide, h1.2.2 (by decide)⟩

/-- C3: after Reset, and after ResetData from a not-yet-reset engine, the
shared parameter buffer has length genWeights + discWeights, where the two
weight counts are the sums of the per-layer weight sizes of the generator
and the discriminator, and the two parameter views are installed at
offsets 0 and genWeights with lengths genWeights and discWeights, a
disjoint partition of the buffer with no overlap. -/
theorem reset_installs_partition (env : Env) (s : GANState)
    (trainData : List Col) (rl fl : ℚ) (ft fn fgp fgr : List Col)
    (h : s.reset = false) :
    (ParamPartition (Reset env s) ∧
      (Reset env s).genWeights = env.genLayerSizes.sum ∧
      (Reset env s).discWeights = env.discLayerSizes.sum) ∧
    (ParamPartition (ResetData env s trainData rl fl ft fn fgp fgr) ∧
      (ResetData env s trainData rl fl ft fn fgp fgr).genWeights
        = env.genLayerSizes.sum ∧
      (ResetData env s trainData rl fl ft fn fgp fgr).discWeights
        = env.discLayerSizes.sum) := by
  constructor
  · refine ⟨⟨?_, rfl, rfl, rfl, rfl⟩, rfl, rfl⟩
    simp [Reset, List.length_append, env.genInit_len, env.discInit_len]
  · unfold ResetData ResetDeterministicProp
    simp only [h]
    refine ⟨⟨?_, rfl, rfl, rfl, rfl⟩, rfl, rfl⟩
    simp [Reset, List.length_append, env.genInit_len, env.discInit_len]

/-- Closed witness for `reset_installs_partition` at the concrete inputs
`env0` and `st0`. -/
theorem reset_installs_partition_witness :
    st0.reset = false ∧ ParamPartition (Reset env0 st0) ∧
      ParamPartition (ResetData env0 st0 [[1], [2]] 1 0 [[0]] [[0]] [[0]]
        [[0]]) :=
  ⟨rfl,
    (reset_installs_partition env0 st0 [[1], [2]] 1 0 [[0]] [[0]] [[0]]
      [[0]] rfl).1.1,
    (reset_installs_partition env0 st0 [[1], [2]] 1 0 [[0]] [[0]] [[0]]
      [[0]] rfl).2.1⟩

theorem writeSlice_length_ge {α : Type} (g : List α) (off : ℕ)
    (v : List α) : min off g.length ≤ (writeSlice g off v).length := by
  unfold writeSlice
  simp only [List.length_append, List.length_take, List.length_drop]
  omega

theorem take_double_write {glen L : ℕ} (v1 v2 : List ℚ) (h : glen ≤ L) :
    (writeSlice (writeSlice (List.replicate L (0 : ℚ)) glen v1) glen
        v2).take glen = List.replicate glen 0 := by
  have h1 : glen ≤
      (writeSlice (List.replicate L (0 : ℚ)) glen v1).length := by
    refine le_trans ?_ (writeSlice_length_ge _ glen v1)
    rw [List.length_replicate]
    omega
  have h2 : glen ≤ (List.replicate L (0 : ℚ)).length := by
    rw [List.length_replicate]; exact h
  rw [take_writeSlice _ _ _ _ le_rfl h1,
    take_writeSlice _ _ _ _ le_rfl h2,
    List.take_replicate, Nat.min_eq_left h]

/-- C2: after every EvaluateWithGradient call the response labels of the
generated-slice columns [numFunctions, numFunctions + batchSize) equal
fakeLabel, except when the generator update gate (currentBatch mod
generatorUpdateStep = 0 and preTrainSize = 0) is taken, in which case the
call leaves them at realLabel until the next call overwrites them. -/
theorem ewg_generated_slice_labels (env : Env) (s : GANState) (i : ℕ)
    (gradIn : List ℚ) (freshNoise : List Col)
    (hR : s.responses.length = s.numFunctions + s.batchSize) :
    (EvaluateWithGradient env s i gradIn freshNoise).2.2.responses.drop
        s.numFunctions
      = List.replicate s.batchSize
          (if s.currentBatch % s.generatorUpdateStep = 0 ∧
              s.preTrainSize = 0
           then s.realLabel else s.fakeLabel) := by
  have hfake : (writeSlice s.responses s.numFunctions
      (List.replicate s.batchSize s.fakeLabel)).length
      = s.numFunctions + s.batchSize := by
    rw [writeSlice_length _ _ _ (by rw [List.length_replicate, hR])]
    exact hR
  simp only [EvaluateWithGradient, lazyReset, Reset,
    ResetDeterministicProp, apply_ite Prod.snd,
    apply_ite GANState.responses, apply_ite GANState.numFunctions,
    apply_ite GANState.batchSize, apply_ite GANState.currentBatch,
    apply_ite GANState.preTrainSize,
    apply_ite GANState.generatorUpdateStep, apply_ite GANState.realLabel,
    apply_ite GANState.fakeLabel, ite_self]
  split_ifs with hg
  · exact drop_writeSlice _ _ _ (by rw [hfake, List.length_replicate])
  · exact drop_writeSlice _ _ _ (by rw [hR, List.length_replicate])

/-- Closed witness for `ewg_generated_slice_labels` at the concrete
inputs `env0` and `st0`, where the gate is closed. -/
theorem ewg_generated_slice_labels_witness :
    st0.responses.length = st0.numFunctions + st0.batchSize ∧
    (EvaluateWithGradient env0 st0 0 [] []).2.2.responses.drop
        st0.numFunctions
      = List.replicate st0.batchSize
          (if st0.currentBatch % st0.generatorUpdateStep = 0 ∧
              st0.preTrainSize = 0
           then st0.realLabel else st0.fakeLabel) :=
  ⟨by decide, ewg_generated_slice_labels env0 st0 0 [] [] (by decide)⟩

/-- C1: on every EvaluateWithGradient call where the generator update gate
(currentBatch mod generatorUpdateStep = 0 and preTrainSize = 0) does not
hold, the generator segment of the returned gradient (the first
genViewLen entries, aliased by the generator parameter view) is all-zero,
so the generator parameters change only on gated calls. -/
theorem ewg_generator_segment_zero_off_gate (env : Env) (s : GANState)
    (i : ℕ) (gradIn : List ℚ) (freshNoise : List Col)
    (hV : s.genViewLen + s.discViewLen = s.parameter.length)
    (hG : gradIn = [] ∨ gradIn.length = s.parameter.length)
    (hGate : ¬(s.currentBatch % s.generatorUpdateStep = 0 ∧
        s.preTrainSize = 0)) :
    (EvaluateWithGradient env s i gradIn freshNoise).2.1.take
        (EvaluateWithGradient env s i gradIn freshNoise).2.2.genViewLen
      = List.replicate
          (EvaluateWithGradient env s i gradIn freshNoise).2.2.genViewLen
          (0 : ℚ) := by
  by_cases hp : s.parameter.isEmpty
  · have hgi : gradIn = [] := by
      rcases hG with h | h
      · exact h
      · rw [List.isEmpty_iff.mp hp] at h
        exact List.length_eq_zero.mp (by simpa using h)
    subst hgi
    simp only [EvaluateWithGradient, lazyReset, Reset,
      ResetDeterministicProp, hp, List.isEmpty_nil, if_true,
      apply_ite Prod.fst, apply_ite Prod.snd,
      apply_ite GANState.genViewLen, apply_ite GANState.currentBatch,
      apply_ite GANState.generatorUpdateStep,
      apply_ite GANState.preTrainSize, apply_ite GANState.parameter,
      ite_self, hGate, if_false]
    exact take_double_write _ _ (by
      rw [List.length_append, env.genInit_len]; omega)
  · have hp' : s.parameter.isEmpty = false := by
      simpa using hp
    by_cases hgi : gradIn.isEmpty
    · simp only [EvaluateWithGradient, lazyReset, Reset,
        ResetDeterministicProp, hp', hgi, Bool.false_eq_true, if_false,
        if_true, apply_ite Prod.fst, apply_ite Prod.snd,
        apply_ite GANState.genViewLen, apply_ite GANState.currentBatch,
        apply_ite GANState.generatorUpdateStep,
        apply_ite GANState.preTrainSize, apply_ite GANState.parameter,
        ite_self, hGate]
      exact take_double_write _ _ (by omega)
    · have hgi' : gradIn.isEmpty = false := by
        simpa using hgi
      have hlen : gradIn.length = s.parameter.length := by
        rcases hG with h | h
        · rw [h] at hgi'
          simp at hgi'
        · exact h
      simp only [EvaluateWithGradient, lazyReset, Reset,
        ResetDeterministicProp, hp', hgi', Bool.false_eq_true, if_false,
        apply_ite Prod.fst, apply_ite Prod.snd,
        apply_ite GANState.genViewLen, apply_ite GANState.currentBatch,
        apply_ite GANState.generatorUpdateStep,
        apply_ite GANState.preTrainSize, apply_ite GANState.parameter,
        ite_self, hGate]
      exact take_double_write _ _ (by rw [hlen]; omega)

/-- Closed witness for `ewg_generator_segment_zero_off_gate` at the
concrete inputs `env0` and `st0`, where the gate is closed. -/
theorem ewg_generator_segment_zero_off_gate_witness :
    (st0.genViewLen + st0.discViewLen = st0.parameter.length ∧
      ¬(st0.currentBatch % st0.generatorUpdateStep = 0 ∧
        st0.preTrainSize = 0)) ∧
    (EvaluateWithGradient env0 st0 0 [] []).2.1.take
        (EvaluateWithGradient env0 st0 0 [] []).2.2.genViewLen
      = List.replicate
          (EvaluateWithGradient env0 st0 0 [] []).2.2.genViewLen
          (0 : ℚ) :=
  ⟨⟨by decide, by decide⟩,
    ewg_generator_segment_zero_off_gate env0 st0 0 [] [] (by decide)
      (Or.inl rfl) (by decide)⟩

theorem evalPre_fields (env : Env) (s : GANState) :
    (evalPre env s).predictors = s.predictors ∧
    (evalPre env s).responses = s.responses ∧
    (evalPre env s).numFunctions = s.numFunctions ∧
    (evalPre env s).batchSize = s.batchSize ∧
    (evalPre env s).fakeLabel = s.fakeLabel := by
  refine ⟨?_, ?_, ?_, ?_, ?_⟩ <;>
    simp only [evalPre, lazyReset, Reset, ResetDeterministicProp,
      apply_ite GANState.predictors, apply_ite GANState.responses,
      apply_ite GANState.numFunctions, apply_ite GANState.batchSize,
      apply_ite GANState.fakeLabel, ite_self]

/-- C10: the loss-only Evaluate entry point mutates shared state: it
refreshes the noise matrix to the freshly sampled noise, overwrites the
generator-reserved predictor columns [numFunctions,
numFunctions + batchSize) with the generator forward output, and sets the
trailing response columns back to fakeLabel, whatever they held before
(in particular after a gated EvaluateWithGradient call left them at
realLabel). -/
theorem evaluate_refreshes_state (env : Env) (s : GANState) (i : ℕ)
    (freshNoise : List Col)
    (hP : s.predictors.length = s.numFunctions + s.batchSize)
    (hR : s.responses.length = s.numFunctions + s.batchSize) :
    (Evaluate env s i freshNoise).2.noise = freshNoise ∧
    (Evaluate env s i freshNoise).2.predictors.drop s.numFunctions
      = env.genForward (evalNoiseState env s freshNoise) freshNoise ∧
    (Evaluate env s i freshNoise).2.responses.drop s.numFunctions
      = List.replicate s.batchSize s.fakeLabel := by
  obtain ⟨hpred, hresp, hnf, hbs, hfl⟩ := evalPre_fields env s
  have hspred : (evalNoiseState env s freshNoise).predictors
      = s.predictors := hpred
  have hsresp : (evalNoiseState env s freshNoise).responses
      = s.responses := hresp
  have hsnf : (evalNoiseState env s freshNoise).numFunctions
      = s.numFunctions := hnf
  have hsbs : (evalNoiseState env s freshNoise).batchSize
      = s.batchSize := hbs
  have hsfl : (evalNoiseState env s freshNoise).fakeLabel
      = s.fakeLabel := hfl
  have hsnoise : (evalNoiseState env s freshNoise).noise = freshNoise :=
    rfl
  have hout : (env.genForward (evalNoiseState env s freshNoise)
      freshNoise).length = s.batchSize := by
    rw [env.genForward_len]
    exact hsbs
  refine ⟨?_, ?_, ?_⟩
  · simp only [Evaluate]
    exact hsnoise
  · simp only [Evaluate]
    rw [hspred, hsnf]
    exact drop_writeSlice _ _ _ (by rw [hout, hP])
  · simp only [Evaluate]
    rw [hsresp, hsnf, hsbs, hsfl]
    rw [drop_writeSlice _ _ _ (by rw [List.length_replicate]; exact hR)]

/-- Closed witness for `evaluate_refreshes_state` at the concrete inputs
`env0` and `st0`, whose trailing response label is not fakeLabel before
the call. -/
theorem evaluate_refreshes_state_witness :
    (st0.predictors.length = st0.numFunctions + st0.batchSize ∧
      st0.responses.length = st0.numFunctions + st0.batchSize) ∧
    (Evaluate env0 st0 0 [[7]]).2.responses.drop st0.numFunctions
      = List.replicate st0.batchSize st0.fakeLabel :=
  ⟨⟨by decide, by decide⟩,
    (evaluate_refreshes_state env0 st0 0 [[7]] (by decide) (by decide)).2.2⟩

theorem map_getD_range_eq_take {α : Type} (g : List α) (n : ℕ) (d : α)
    (h : n ≤ g.length) :
    (List.range n).map (fun k => g.getD k d) = g.take n := by
  apply List.ext_getElem
  · simp only [List.length_map, List.length_range, List.length_take]
    omega
  · intro j h1 h2
    simp only [List.getElem_map, List.getElem_range, List.getElem_take]
    rw [List.getD_eq_getElem]

/-- C7: Shuffle applied with a permutation of [0, numFunctions) rearranges
the real-sample columns of the predictor matrix: the multiset of the
columns [0, numFunctions) is unchanged, and the generator-reserved
columns from numFunctions on are untouched. -/
theorem shuffle_is_permutation (s : GANState) (ordering : List ℕ)
    (hperm : ordering.Perm (List.range s.numFunctions))
    (_hn : 1 ≤ s.numFunctions)
    (hlen : s.numFunctions ≤ s.predictors.length) :
    ((Shuffle s ordering).predictors.take s.numFunctions : Multiset Col)
      = (s.predictors.take s.numFunctions : Multiset Col) ∧
    (Shuffle s ordering).predictors.drop s.numFunctions
      = s.predictors.drop s.numFunctions := by
  have hlperm : (ordering.map (fun k => s.predictors.getD k [])).length
      = s.numFunctions := by
    rw [List.length_map, hperm.length_eq, List.length_range]
  constructor
  · have ht : (Shuffle s ordering).predictors.take s.numFunctions
        = ordering.map (fun k => s.predictors.getD k []) := by
      simp only [Shuffle, writeSlice, List.take_zero, List.nil_append,
        Nat.zero_add]
      rw [List.take_append_of_le_length (le_of_eq hlperm.symm)]
      rw [← hlperm, List.take_length]
    have hp2 : (ordering.map (fun k => s.predictors.getD k [])).Perm
        (s.predictors.take s.numFunctions) := by
      have hm := hperm.map (fun k => s.predictors.getD k [])
      rwa [map_getD_range_eq_take s.predictors s.numFunctions [] hlen]
        at hm
    rw [ht]
    exact Multiset.coe_eq_coe.mpr hp2
  · simp only [Shuffle, writeSlice, List.take_zero, List.nil_append,
      Nat.zero_add]
    rw [List.drop_left' hlperm, hlperm]

/-- Closed witness for `shuffle_is_permutation` at the concrete state
`st0` and the concrete ordering [1, 0]. -/
theorem shuffle_is_permutation_witness :
    (List.Perm [1, 0] (List.range st0.numFunctions) ∧
      1 ≤ st0.numFunctions ∧
      st0.numFunctions ≤ st0.predictors.length) ∧
    ((Shuffle st0 [1, 0]).predictors.take st0.numFunctions : Multiset Col)
      = (st0.predictors.take st0.numFunctions : Multiset Col) ∧
    (Shuffle st0 [1, 0]).predictors.drop st0.numFunctions
      = st0.predictors.drop st0.numFunctions :=
  ⟨⟨by decide, by decide, by decide⟩,
    (shuffle_is_permutation st0 [1, 0] (by decide) (by decide)
      (by decide)).1,
    (shuffle_is_permutation st0 [1, 0] (by decide) (by decide)
      (by decide)).2⟩

theorem armaCov_X0 : armaCov X0.transpose = covX0 := by
  ext i j
  fin_cases i <;> fin_cases j <;>
    norm_num [armaCov, colMean, X0, covX0, Matrix.transpose_apply,
      Fin.sum_univ_two, Matrix.of_apply, Matrix.cons_val_zero,
      Matrix.cons_val_one, Matrix.head_cons]

theorem covX0_transpose : covX0.transpose = covX0 := by
  ext i j
  fin_cases i <;> fin_cases j <;>
    norm_num [covX0, Matrix.transpose_apply, Matrix.of_apply,
      Matrix.cons_val_zero, Matrix.cons_val_one, Matrix.head_cons]

theorem covX0_sq : covX0 * covX0 = Matrix.of ![![225/4, 75], ![75, 100]] := by
  ext i j
  fin_cases i <;> fin_cases j <;>
    norm_num [covX0, Matrix.mul_apply, Fin.sum_univ_two, Matrix.of_apply,
      Matrix.cons_val_zero, Matrix.cons_val_one, Matrix.head_cons]

theorem covProd_X0 :
    covProd X0 X0 = Matrix.of ![![225/4, 75], ![75, 100]] := by
  unfold covProd
  rw [armaCov_X0, covX0_transpose, covX0_sq]

theorem frechetEvaluate_X0 : frechetEvaluate X0 X0 = -10 := by
  have hs0 : Real.sqrt (225/4 : ℝ) = 15/2 := by
    rw [show (225/4 : ℝ) = (15/2)^2 by norm_num,
      Real.sqrt_sq (by norm_num)]
  have hs1 : Real.sqrt (100 : ℝ) = 10 := by
    rw [show (100 : ℝ) = (10 : ℝ)^2 by norm_num,
      Real.sqrt_sq (by norm_num)]
  simp only [frechetEvaluate]
  rw [armaCov_X0, covX0_transpose, covX0_sq]
  simp only [sub_self, ne_eq, OfNat.ofNat_ne_zero, not_false_eq_true,
    zero_pow, Finset.sum_const_zero, Real.sqrt_zero, zero_add]
  rw [Matrix.trace_fin_two]
  simp only [Matrix.sub_apply, Matrix.add_apply, Matrix.smul_apply,
    elemSqrt, Matrix.of_apply, Matrix.cons_val_zero, Matrix.cons_val_one,
    Matrix.head_cons, covX0, smul_eq_mul]
  rw [hs0, hs1]
  norm_num

/-- C6 (code bug): FrechetDistance::Evaluate applied to two copies of the
same sample matrix does not return 0: at X0 it returns -10, because
arma::sqrt is the element-wise square root, not the principal matrix
square root the formula needs, so the covariance term does not vanish. -/
theorem frechet_self_distance_nonzero :
    frechetEvaluate X0 X0 = -10 ∧ frechetEvaluate X0 X0 ≠ 0 :=
  ⟨frechetEvaluate_X0, by rw [frechetEvaluate_X0]; norm_num⟩

theorem frechetSpecValue_X0 : frechetSpecValue X0 X0 covX0 = 0 := by
  unfold frechetSpecValue
  rw [armaCov_X0]
  simp only [sub_self, ne_eq, OfNat.ofNat_ne_zero, not_false_eq_true,
    zero_pow, Finset.sum_const_zero, Real.sqrt_zero, zero_add, two_smul]
  simp

theorem psd_quadratic {S : Matrix (Fin 2) (Fin 2) ℝ} (hP : S.PosSemidef)
    (x y : ℝ) :
    0 ≤ S 0 0 * x ^ 2 + 2 * S 0 1 * x * y + S 1 1 * y ^ 2 := by
  have hsym : S 1 0 = S 0 1 := by
    have h := hP.1.apply 0 1
    simpa using h
  have h := hP.2 ![x, y]
  have h2 : 0 ≤ x * (S 0 0 * x + S 0 1 * y) +
      y * (S 0 1 * x + S 1 1 * y) := by
    simpa [Matrix.mulVec, Matrix.dotProduct, Fin.sum_univ_two, hsym,
      Matrix.cons_val_zero, Matrix.cons_val_one, Matrix.head_cons,
      mul_comm] using h
  nlinarith [h2]

theorem psd_sqrt_unique (S : Matrix (Fin 2) (Fin 2) ℝ)
    (hP : S.PosSemidef)
    (hSq : S * S = Matrix.of ![![225/4, 75], ![75, 100]]) : S = covX0 := by
  have hsym : S 1 0 = S 0 1 := by
    have h := hP.1.apply 0 1
    simpa using h
  have ha : 0 ≤ S 0 0 := by
    have h := psd_quadratic hP 1 0
    nlinarith [h]
  have hd : 0 ≤ S 1 1 := by
    have h := psd_quadratic hP 0 1
    nlinarith [h]
  have e00 : S 0 0 * S 0 0 + S 0 1 * S 0 1 = 225/4 := by
    have h := congrFun (congrFun hSq 0) 0
    simpa [Matrix.mul_apply, Fin.sum_univ_two, hsym, Matrix.of_apply,
      Matrix.cons_val_zero, Matrix.cons_val_one, Matrix.head_cons]
      using h
  have e01 : S 0 0 * S 0 1 + S 0 1 * S 1 1 = 75 := by
    have h := congrFun (congrFun hSq 0) 1
    simpa [Matrix.mul_apply, Fin.sum_univ_two, hsym, Matrix.of_apply,
      Matrix.cons_val_zero, Matrix.cons_val_one, Matrix.head_cons]
      using h
  have e11 : S 0 1 * S 0 1 + S 1 1 * S 1 1 = 100 := by
    have h := congrFun (congrFun hSq 1) 1
    simpa [Matrix.mul_apply, Fin.sum_univ_two, hsym, Matrix.of_apply,
      Matrix.cons_val_zero, Matrix.cons_val_one, Matrix.head_cons]
      using h
  have key : (S 0 0 * S 1 1 - S 0 1 * S 0 1) ^ 2 = 0 := by
    have hid : (S 0 0 * S 1 1 - S 0 1 * S 0 1) ^ 2
        = (S 0 0 * S 0 0 + S 0 1 * S 0 1) *
            (S 0 1 * S 0 1 + S 1 1 * S 1 1)
          - (S 0 0 * S 0 1 + S 0 1 * S 1 1) ^ 2 := by ring
    rw [hid, e00, e01, e11]
    norm_num
  have hdet : S 0 0 * S 1 1 - S 0 1 * S 0 1 = 0 :=
    pow_eq_zero_iff (by norm_num) |>.mp key
  have hsum2 : (S 0 0 + S 1 1) ^ 2 = 625/4 := by nlinarith [e00, e11, hdet]
  have hsum : S 0 0 + S 1 1 = 25/2 := by
    have hfac : (S 0 0 + S 1 1 - 25/2) * (S 0 0 + S 1 1 + 25/2) = 0 := by
      linear_combination hsum2
    rcases mul_eq_zero.mp hfac with h | h
    · linarith
    · linarith
  have hb : S 0 1 = 6 := by
    linear_combination (2/25) * e01 - (2/25) * S 0 1 * hsum
  have ha2 : S 0 0 * S 0 0 = 81/4 := by
    linear_combination e00 - (S 0 1 + 6) * hb
  have haa : S 0 0 = 9/2 := by
    have hfac : (S 0 0 - 9/2) * (S 0 0 + 9/2) = 0 := by
      linear_combination ha2
    rcases mul_eq_zero.mp hfac with h | h
    · linarith
    · linarith
  have hdd : S 1 1 = 8 := by linarith
  ext i j
  fin_cases i <;> fin_cases j
  · simpa [covX0] using haa
  · simpa [covX0] using hb
  · simpa [covX0] using hsym.trans hb
  · simpa [covX0] using hdd

theorem covX0_psd : covX0.PosSemidef := by
  constructor
  · ext i j
    fin_cases i <;> fin_cases j <;>
      simp [covX0, Matrix.conjTranspose_apply]
  · intro x
    have h : Matrix.dotProduct (star x) (covX0.mulVec x)
        = x 0 * (9/2 * x 0 + 6 * x 1) + x 1 * (6 * x 0 + 8 * x 1) := by
      simp [Matrix.mulVec, Matrix.dotProduct, Fin.sum_univ_two, covX0,
        Matrix.of_apply, Matrix.cons_val_zero, Matrix.cons_val_one,
        Matrix.head_cons]
    rw [h]
    nlinarith [sq_nonneg (3 * x 0 + 4 * x 1)]

/-- C5 (code bug): FrechetDistance::Evaluate does not compute the spec
expression with the principal matrix square root.  At the concrete input
p = pw = X0 the code returns -10 (element-wise arma::sqrt), while the
matrix covX0 is the principal square root of Cov(P) Cov(Q)^t there, every
matrix satisfying the principal square root characterisation gives the
spec expression the value 0, and -10 differs from it. -/
theorem frechet_elementwise_sqrt_divergence :
    frechetEvaluate X0 X0 = -10 ∧
    IsPrincipalSqrt (covProd X0 X0) covX0 ∧
    ∀ S : Matrix (Fin 2) (Fin 2) ℝ, IsPrincipalSqrt (covProd X0 X0) S →
      frechetSpecValue X0 X0 S = 0 ∧
      frechetEvaluate X0 X0 ≠ frechetSpecValue X0 X0 S := by
  have hprin : IsPrincipalSqrt (covProd X0 X0) covX0 := by
    refine ⟨covX0_psd, ?_⟩
    rw [covProd_X0, covX0_sq]
  refine ⟨frechetEvaluate_X0, hprin, ?_⟩
  intro S hS
  have hSeq : S = covX0 := by
    refine psd_sqrt_unique S hS.1 ?_
    rw [← covProd_X0]
    exact hS.2
  rw [hSeq, frechetSpecValue_X0, frechetEvaluate_X0]
  exact ⟨rfl, by norm_num⟩

/-- Closed witness for `frechet_elementwise_sqrt_divergence`,
instantiating its universally quantified part at the concrete principal
square root covX0. -/
theorem frechet_elementwise_sqrt_divergence_witness :
    IsPrincipalSqrt (covProd X0 X0) covX0 ∧
    frechetSpecValue X0 X0 covX0 = 0 ∧
    frechetEvaluate X0 X0 ≠ frechetSpecValue X0 X0 covX0 :=
  ⟨frechet_elementwise_sqrt_divergence.2.1,
    (frechet_elementwise_sqrt_divergence.2.2 covX0
      frechet_elementwise_sqrt_divergence.2.1).1,
    (frechet_elementwise_sqrt_divergence.2.2 covX0
      frechet_elementwise_sqrt_divergence.2.1).2⟩
